import Mathlib

/-!
Shallow embedding of `src/main.py` (rand-tiktok-post): the TWICE-relevance
classifier `is_twice_related`, the processed-ID ledger (a newline-delimited
text file), the `__main__` orchestration, and the Facebook upload wrapper
`post_to_facebook`.  Python strings are modelled as Lean `String`s; `str.lower`
is modelled on its ASCII behaviour (`Char.toLower` per character), which agrees
with CPython on every ASCII input (the fixed word lists in the source are ASCII
or caseless Korean).  `x in y` on strings is substring search, `x in list` is
equality membership, exactly as in CPython.
-/

namespace RandTiktok

/-- Model of Python `str.lower()` (ASCII case mapping, identity elsewhere). -/
def pyLower (s : String) : String := ⟨s.data.map Char.toLower⟩

/-- Contiguous-sublist test on character lists. -/
def infixOf (needle : List Char) : List Char → Bool
  | [] => needle.isEmpty
  | c :: rest => needle.isPrefixOf (c :: rest) || infixOf needle rest

/-- Model of Python `needle in hay` on strings: substring test. -/
def strIn (needle hay : String) : Bool := infixOf needle.data hay.data

/-- `TWICE_MEMBERS` from src/main.py (lines 20-23). -/
def TWICE_MEMBERS : List String :=
  ["nayeon", "jeongyeon", "momo", "sana", "jihyo",
   "mina", "dahyun", "chaeyoung", "tzuyu"]

/-- `OFFICIAL_ACCOUNTS_TO_SKIP` from src/main.py (lines 26-31). -/
def OFFICIAL_ACCOUNTS_TO_SKIP : List String :=
  ["twice_tiktok_official", "twice.official", "jypetwice", "twicetagram"]

/-- `[acc.lower() for acc in OFFICIAL_ACCOUNTS_TO_SKIP]` (line 48). -/
def officialLower : List String := OFFICIAL_ACCOUNTS_TO_SKIP.map pyLower

/-- `twice_specific_tags` from src/main.py (lines 74-79). -/
def twice_specific_tags : List String :=
  ["트와이스", "twice_", "once", "jypentertainment", "jype",
   "feelspecial", "fancyyou", "twicetagram", "formula_of_love",
   "between1and2", "readytobe", "with_you_th", "celebrate",
   "talk_that_talk", "scientist", "perfect_world", "the_feels"]

/-- `group_keywords` from src/main.py (lines 87-91). -/
def group_keywords : List String :=
  ["트와이스", "anniversary", "comeback", "debut",
   "mv", "choreography", "performance", "stage", "concert",
   "showcase", "once", "ot9", "edit", "fanmade", "cover"]

/-- `blocklist` from src/main.py (lines 104-109). -/
def blocklist : List String :=
  ["not twice", "vs twice", "better than twice",
   "blackpink", "bts", "itzy", "aespa",
   "tutorial", "how to", "challenge",
   "giveaway", "contest", "follow for"]

/-- `required_evidence = 2` (line 98). -/
def required_evidence : Nat := 2

/-- `matching_members = [m for m in TWICE_MEMBERS if m in hashtags_lower]` (line 62). -/
def memberHashtagMatches (hashtags_lower : List String) : List String :=
  TWICE_MEMBERS.filter (fun m => hashtags_lower.contains m)

/-- `caption_members = [m for m in TWICE_MEMBERS if m in caption_lower]` (line 68). -/
def captionMemberMatches (caption_lower : String) : List String :=
  TWICE_MEMBERS.filter (fun m => strIn m caption_lower)

/-- `matching_specific = [tag for tag in twice_specific_tags if any(tag in ht for ht in hashtags_lower)]` (lines 80-81). -/
def specificTagMatches (hashtags_lower : List String) : List String :=
  twice_specific_tags.filter (fun t => hashtags_lower.any (fun ht => strIn t ht))

/-- `matching_keywords = [kw for kw in group_keywords if kw in caption_lower]` (line 92). -/
def keywordMatches (caption_lower : String) : List String :=
  group_keywords.filter (fun k => strIn k caption_lower)

/-- The sequential `evidence_count` accumulation of src/main.py lines 58-95:
each of the four signals is guarded by a Python truthiness test on the match
list, adding `len(...)` for signals 1 and 3 and exactly `1` for signals 2 and 4. -/
def evidenceCount (caption_lower : String) (hashtags_lower : List String) : Nat :=
  (if (memberHashtagMatches hashtags_lower).isEmpty then 0
   else (memberHashtagMatches hashtags_lower).length)
  + (if (captionMemberMatches caption_lower).isEmpty then 0 else 1)
  + (if (specificTagMatches hashtags_lower).isEmpty then 0
     else (specificTagMatches hashtags_lower).length)
  + (if (keywordMatches caption_lower).isEmpty then 0 else 1)

/-- The reason component of the `(bool, str)` pair returned by
`is_twice_related`, with the data interpolated into each Python f-string kept
as structured payload (which return statement fired, and with what values). -/
inductive Reason where
  /-- Line 50: `"⏭️ Skipping official account: {uploader} (handled by separate script)"`. -/
  | officialSkip (uploader : String)
  /-- Line 55: `"Missing #twice hashtag"`. -/
  | missingHashtag
  /-- Line 101: `"Insufficient evidence ({evidence_count}/{required_evidence}). Only generic #twice tag found"`. -/
  | insufficientEvidence (count threshold : Nat)
  /-- Line 112: `"Blocklist keyword detected: '{blocked}'"`. -/
  | blocked (phrase : String)
  /-- Line 114: `"✅ Valid TWICE fan content (evidence: {evidence_count}) - ..."`. -/
  | valid (count : Nat)
deriving DecidableEq

/-- `is_twice_related(caption, hashtags, uploader)` from src/main.py lines
37-114, with `caption_lower`/`hashtags_lower` inlined and the blocklist `for`
loop rendered as `List.find?` (first match wins, as in the source). -/
def is_twice_related (caption : String) (hashtags : List String) (uploader : String) :
    Bool × Reason :=
  if officialLower.contains (pyLower uploader) then
    (false, Reason.officialSkip uploader)
  else if !((hashtags.map pyLower).contains "twice") then
    (false, Reason.missingHashtag)
  else if evidenceCount (pyLower caption) (hashtags.map pyLower) < required_evidence then
    (false, Reason.insufficientEvidence
      (evidenceCount (pyLower caption) (hashtags.map pyLower)) required_evidence)
  else
    match blocklist.find? (fun b => strIn b (pyLower caption)) with
    | some b => (false, Reason.blocked b)
    | none => (true, Reason.valid (evidenceCount (pyLower caption) (hashtags.map pyLower)))

example : is_twice_related "" [] "randomfan123" = (false, Reason.missingHashtag) := by decide

example : is_twice_related "check out this dance #twice" ["twice"] "randomfan123"
    = (false, Reason.insufficientEvidence 0 2) := by decide

example : is_twice_related "hello" [] "Twice.Official"
    = (false, Reason.officialSkip "Twice.Official") := by decide

example : is_twice_related "nayeon momo blackpink #twice" ["twice", "nayeon", "momo"] "fan1"
    = (false, Reason.blocked "blackpink") := by decide

example : is_twice_related "Dancing to Feel Special! #twice #nayeon #ot9"
    ["twice", "nayeon", "ot9"] "randomfan123" = (true, Reason.valid 3) := by decide

/-!
The processed-ID ledger.  `ID_LIST_FILE` is a newline-delimited text file,
modelled as its character content (`List Char`), with `none` standing for a
missing file.  Reading is `set(ID_LIST_FILE.read_text().splitlines())` (line
264), appending is `f.write(video_info["id"] + "\n")` (line 300).
-/

/-- Model of Python `str.splitlines()` restricted to the LF separator (the
only separator the ledger ever contains): accumulate the current line in
`acc`; a trailing segment without a final newline still forms a line, and a
trailing newline does not produce an extra empty line. -/
def splitlinesAux : List Char → List Char → List (List Char)
  | acc, [] => if acc.isEmpty then [] else [acc]
  | acc, c :: rest =>
    if c = '\n' then acc :: splitlinesAux [] rest else splitlinesAux (acc ++ [c]) rest

/-- `content.splitlines()` on the ledger file's character content. -/
def pySplitlines (s : List Char) : List (List Char) := splitlinesAux [] s

/-- `video_info["id"] in set(ID_LIST_FILE.read_text().splitlines())` (lines 264-266). -/
def ledgerContains (content id : List Char) : Bool := (pySplitlines content).contains id

/-- `f.write(video_info["id"] + "\n")` in append mode (lines 299-300). -/
def ledgerAppend (content id : List Char) : List Char := content ++ id ++ ['\n']

/-- Lines 261-262: `if not ID_LIST_FILE.exists(): ID_LIST_FILE.write_text("")` —
a missing file is created empty before the first read. -/
def ensureLedgerFile (file : Option (List Char)) : List Char := file.getD []

/-- The file content produced by appending each listed identifier in turn to
an initially empty ledger. -/
def joinIds : List (List Char) → List Char
  | [] => []
  | id :: rest => id ++ '\n' :: joinIds rest

/-- The `video_info` dict returned by `get_video_info` (lines 148-153). -/
structure VideoInfo where
  id : List Char
  url : String
  caption : String
  username : String
deriving DecidableEq

/-- Terminal outcome of one `__main__` run (which `print`/`sys.exit` path it took). -/
inductive RunOutcome where
  /-- Line 257: `"No valid TWICE video found."` (fetch/classify produced nothing). -/
  | noValidVideo
  /-- Line 267: `"Skipping: Video ... already processed."`. -/
  | alreadyProcessed
  /-- Lines 298-301: testing mode — upload skipped, ID appended to history. -/
  | recorded
  /-- Download returned `None` or left no file: falls through to line 303. -/
  | downloadFailed
deriving DecidableEq

/-- Observable effects of one `__main__` run. -/
structure RunResult where
  downloadInvoked : Bool
  publishInvoked : Bool
  appended : Bool
  fileAfter : Option (List Char)
  outcome : RunOutcome
deriving DecidableEq

/-- The `__main__` block of src/main.py (lines 256-303) from the point where
`video_info` is known. `info` is `get_video_info`'s result; `file` is the
ledger file's content (`none` = missing); `downloadOk` models
`video_path and video_path.exists()` (line 278).  In the shipped code the
Facebook upload is commented out ("TESTING MODE", lines 282-295): after a
successful download the ID is appended to the history with **no** publish
attempt (lines 297-301). -/
def mainRun (info : Option VideoInfo) (file : Option (List Char)) (downloadOk : Bool) :
    RunResult :=
  match info with
  | none => ⟨false, false, false, file, RunOutcome.noValidVideo⟩
  | some v =>
    let content := ensureLedgerFile file
    if ledgerContains content v.id then
      ⟨false, false, false, some content, RunOutcome.alreadyProcessed⟩
    else if downloadOk then
      ⟨true, false, true, some (ledgerAppend content v.id), RunOutcome.recorded⟩
    else
      ⟨true, false, false, some content, RunOutcome.downloadFailed⟩

/-- N separate pipeline runs, one per candidate, each with a succeeding
download, threading the ledger file through. -/
def runSequence (infos : List VideoInfo) (file : Option (List Char)) : Option (List Char) :=
  infos.foldl (fun f v => (mainRun (some v) f true).fileAfter) file

example : pySplitlines "a\nbb\n".data = ["a".data, "bb".data] := by decide
example : pySplitlines "a\nbb".data = ["a".data, "bb".data] := by decide
example : pySplitlines [] = [] := by decide
example : ledgerContains "xy".data "y".data = false := by decide
example : runSequence [⟨"a".data, "", "", ""⟩, ⟨"b".data, "", "", ""⟩] none
    = some "a\nb\n".data := by decide

/-!
`post_to_facebook` (src/main.py lines 214-237), parameterised by the two
environment credentials (`os.getenv` yields `none` when unset) and by the
remote call's outcome.
-/

/-- Python truthiness of an optional string: `not x` is true for `None` and `""`. -/
def isUnset : Option String → Bool
  | none => true
  | some s => s.isEmpty

/-- Outcome of `requests.post`: an HTTP status code, or a raised
`requests.exceptions.RequestException`. -/
inductive RemoteOutcome where
  | status (code : Nat)
  | requestError
deriving DecidableEq

/-- Whether the remote call was attempted and what `post_to_facebook` returned. -/
structure PostResult where
  attempted : Bool
  success : Bool
deriving DecidableEq

/-- `post_to_facebook` (lines 214-237): short-circuit `False` when either
credential is falsy (line 216-218); otherwise `True` iff the remote call
returns status 200 (lines 229-234), `False` on a transport exception
(lines 235-237). -/
def post_to_facebook (pageAccessToken pageId : Option String) (remote : RemoteOutcome) :
    PostResult :=
  if isUnset pageAccessToken || isUnset pageId then ⟨false, false⟩
  else
    match remote with
    | RemoteOutcome.status code => ⟨true, code == 200⟩
    | RemoteOutcome.requestError => ⟨true, false⟩

example : post_to_facebook none (some "pg") (RemoteOutcome.status 200) = ⟨false, false⟩ := by
  decide
example : post_to_facebook (some "tk") (some "pg") (RemoteOutcome.status 200)
    = ⟨true, true⟩ := by decide
example : post_to_facebook (some "tk") (some "pg") (RemoteOutcome.status 400)
    = ⟨true, false⟩ := by decide

/-! Helper lemmas shared by several claim theorems. -/

lemma contains_eq_true_iff {α} [BEq α] [LawfulBEq α] (l : List α) (a : α) :
    l.contains a = true ↔ a ∈ l := by
  simp [List.contains, List.elem_iff]

lemma filter_isEmpty_eq_not_any {α} (p : α → Bool) (l : List α) :
    (l.filter p).isEmpty = !(l.any p) := by
  induction l with
  | nil => rfl
  | cons x xs ih => cases hx : p x <;> simp [List.filter_cons, List.any_cons, hx, ih]

/-- Evaluation of `is_twice_related` on the official-skip path (lines 47-50). -/
lemma is_twice_related_official (caption : String) (hashtags : List String)
    (uploader : String) (hoff : officialLower.contains (pyLower uploader) = true) :
    is_twice_related caption hashtags uploader = (false, Reason.officialSkip uploader) := by
  unfold is_twice_related
  rw [if_pos hoff]

/-- Evaluation of `is_twice_related` on the missing-hashtag path (lines 52-55). -/
lemma is_twice_related_missing (caption : String) (hashtags : List String)
    (uploader : String)
    (hoff : officialLower.contains (pyLower uploader) = false)
    (htw : (hashtags.map pyLower).contains "twice" = false) :
    is_twice_related caption hashtags uploader = (false, Reason.missingHashtag) := by
  unfold is_twice_related
  rw [if_neg (by rw [hoff]; exact Bool.false_ne_true), if_pos (by rw [htw]; rfl)]

/-- Evaluation of `is_twice_related` on the insufficient-evidence path
(lines 97-101). -/
lemma is_twice_related_insufficient (caption : String) (hashtags : List String)
    (uploader : String)
    (hoff : officialLower.contains (pyLower uploader) = false)
    (htw : (hashtags.map pyLower).contains "twice" = true)
    (hlt : evidenceCount (pyLower caption) (hashtags.map pyLower) < required_evidence) :
    is_twice_related caption hashtags uploader
      = (false, Reason.insufficientEvidence
          (evidenceCount (pyLower caption) (hashtags.map pyLower)) required_evidence) := by
  unfold is_twice_related
  rw [if_neg (by rw [hoff]; exact Bool.false_ne_true),
    if_neg (by rw [htw]; exact Bool.false_ne_true), if_pos hlt]

/-- Evaluation of `is_twice_related` on the blocklist path (lines 103-112). -/
lemma is_twice_related_blocked (caption : String) (hashtags : List String)
    (uploader : String) (b : String)
    (hoff : officialLower.contains (pyLower uploader) = false)
    (htw : (hashtags.map pyLower).contains "twice" = true)
    (hge : required_evidence ≤ evidenceCount (pyLower caption) (hashtags.map pyLower))
    (hfind : blocklist.find? (fun b => strIn b (pyLower caption)) = some b) :
    is_twice_related caption hashtags uploader = (false, Reason.blocked b) := by
  unfold is_twice_related
  rw [if_neg (by rw [hoff]; exact Bool.false_ne_true),
    if_neg (by rw [htw]; exact Bool.false_ne_true), if_neg (Nat.not_lt.mpr hge), hfind]

lemma ite_isEmpty_length {α} (l : List α) :
    (if l.isEmpty then 0 else l.length) = l.length := by
  cases l <;> simp

lemma ite_isEmpty_filter_one {α} (p : α → Bool) (l : List α) :
    (if (l.filter p).isEmpty then 0 else 1) = (if l.any p then 1 else 0) := by
  rw [filter_isEmpty_eq_not_any]
  cases h : l.any p <;> simp

/-! Claim theorems about the classifier. -/

/-- Claim C10: for every uploader whose handle matches, case-insensitively, one
of the four handles in `OFFICIAL_ACCOUNTS_TO_SKIP`, `is_twice_related` returns a
false verdict with the official-skip reason naming the uploader, regardless of
caption and hashtags (the check runs before every other rule, so it fires even
on an empty hashtag list). -/
theorem official_uploader_always_skipped (caption : String) (hashtags : List String)
    (uploader : String) (hoff : officialLower.contains (pyLower uploader) = true) :
    is_twice_related caption hashtags uploader = (false, Reason.officialSkip uploader) :=
  is_twice_related_official caption hashtags uploader hoff

/-- Witness for C10: the mixed-case handle `"Twice.Official"` is skipped even
with abundant hashtags and an evidence-rich caption. -/
theorem official_uploader_always_skipped_witness :
    officialLower.contains (pyLower "Twice.Official") = true
    ∧ is_twice_related "nayeon ot9 comeback #twice" ["twice", "nayeon"] "Twice.Official"
        = (false, Reason.officialSkip "Twice.Official") :=
  ⟨by decide, official_uploader_always_skipped _ _ _ (by decide)⟩

/-- Counterexample to claim C1 as stated: `"twicetagram"` is in the verified
allow-list, the required `twice` hashtag is present and no blocklist phrase
occurs in the caption, yet the verdict is false (the account is skipped), not
true as the claim concludes. -/
theorem allowlist_threshold_counterexample :
    officialLower.contains (pyLower "twicetagram") = true
    ∧ ((["twice", "nayeon", "momo"].map pyLower).contains "twice") = true
    ∧ blocklist.all (fun b => !(strIn b (pyLower "nayeon momo dance #twice"))) = true
    ∧ (is_twice_related "nayeon momo dance #twice" ["twice", "nayeon", "momo"]
        "twicetagram").1 = false := by decide

/-- Claim C1 (amended): for an uploader case-insensitively in the
official-account list, `is_twice_related` indeed never returns false due to
insufficient evidence — but not because the threshold is 0: the account is
skipped outright, so the verdict is always false with the official-skip
reason, never true, whatever the caption and hashtags. -/
theorem official_uploader_never_insufficient (caption : String) (hashtags : List String)
    (uploader : String) (hoff : officialLower.contains (pyLower uploader) = true) :
    (is_twice_related caption hashtags uploader).1 = false
    ∧ ∀ n t, (is_twice_related caption hashtags uploader).2
        ≠ Reason.insufficientEvidence n t := by
  rw [is_twice_related_official caption hashtags uploader hoff]
  exact ⟨rfl, fun n t h => Reason.noConfusion h⟩

/-- Witness for the amended C1 at a concrete evidence-rich input. -/
theorem official_uploader_never_insufficient_witness :
    officialLower.contains (pyLower "JYPETWICE") = true
    ∧ (is_twice_related "so much nayeon momo #twice" ["twice", "nayeon", "momo"]
        "JYPETWICE").1 = false
    ∧ (is_twice_related "so much nayeon momo #twice" ["twice", "nayeon", "momo"]
        "JYPETWICE").2 ≠ Reason.insufficientEvidence 0 2 :=
  ⟨by decide, (official_uploader_never_insufficient _ _ _ (by decide)).1,
    (official_uploader_never_insufficient _ _ _ (by decide)).2 0 2⟩

/-- Counterexample to claim C3 as stated: with the required hashtag absent the
reason is not always the missing-hashtag one — for the official uploader
`"jypetwice"` the official-skip check fires first, so the claim's "regardless
of the uploader" fails. -/
theorem missing_hashtag_counterexample :
    is_twice_related "" [] "jypetwice" = (false, Reason.officialSkip "jypetwice")
    ∧ Reason.officialSkip "jypetwice" ≠ Reason.missingHashtag := by decide

/-- Claim C3 (amended): for every *non-official* uploader, if the exact token
`"twice"` is absent from the lowercased hashtags, `is_twice_related` returns
the false verdict with the missing-hashtag reason, regardless of the caption
and the other hashtags; in particular the empty caption with the empty hashtag
list yields this outcome. -/
theorem missing_hashtag_rejects (caption : String) (hashtags : List String)
    (uploader : String)
    (hoff : officialLower.contains (pyLower uploader) = false)
    (htw : (hashtags.map pyLower).contains "twice" = false) :
    is_twice_related caption hashtags uploader = (false, Reason.missingHashtag) :=
  is_twice_related_missing caption hashtags uploader hoff htw

/-- Witness for the amended C3 at the empty caption and empty hashtag set. -/
theorem missing_hashtag_rejects_witness :
    officialLower.contains (pyLower "randomfan123") = false
    ∧ (([] : List String).map pyLower).contains "twice" = false
    ∧ is_twice_related "" [] "randomfan123" = (false, Reason.missingHashtag) :=
  ⟨by decide, by decide, missing_hashtag_rejects "" [] "randomfan123" (by decide) (by decide)⟩

/-- Claim C5: for a non-official uploader whose hashtags contain the required
`"twice"` token, an evidence count below the threshold of 2 yields the false
verdict whose reason carries exactly that count over the threshold. -/
theorem insufficient_evidence_rejects (caption : String) (hashtags : List String)
    (uploader : String)
    (hoff : officialLower.contains (pyLower uploader) = false)
    (htw : (hashtags.map pyLower).contains "twice" = true)
    (hlt : evidenceCount (pyLower caption) (hashtags.map pyLower) < required_evidence) :
    is_twice_related caption hashtags uploader
      = (false, Reason.insufficientEvidence
          (evidenceCount (pyLower caption) (hashtags.map pyLower)) required_evidence) :=
  is_twice_related_insufficient caption hashtags uploader hoff htw hlt

/-- Witness for C5: the spec's example — caption `"check out this dance
#twice"`, hashtags `{twice}`, uploader `"randomfan123"` — has evidence count 0
and is rejected citing 0/2. -/
theorem insufficient_evidence_rejects_witness :
    officialLower.contains (pyLower "randomfan123") = false
    ∧ (["twice"].map pyLower).contains "twice" = true
    ∧ evidenceCount (pyLower "check out this dance #twice") (["twice"].map pyLower)
        < required_evidence
    ∧ evidenceCount (pyLower "check out this dance #twice") (["twice"].map pyLower) = 0
    ∧ is_twice_related "check out this dance #twice" ["twice"] "randomfan123"
        = (false, Reason.insufficientEvidence 0 2) := by
  refine ⟨by decide, by decide, by decide, by decide, ?_⟩
  rw [insufficient_evidence_rejects "check out this dance #twice" ["twice"] "randomfan123"
    (by decide) (by decide) (by decide)]
  decide

/-- Claim C4: whenever a caption passes the evidence threshold (required
hashtag present, count at or above the threshold) but some blocklist entry is a
substring of the lowercased caption, the verdict is false and the reason is the
blocklist reason carrying a phrase that does occur in the caption — the
blocklist overrides the positive evidence outcome. -/
theorem blocklist_overrides_evidence (caption : String) (hashtags : List String)
    (uploader : String)
    (hoff : officialLower.contains (pyLower uploader) = false)
    (htw : (hashtags.map pyLower).contains "twice" = true)
    (hge : required_evidence ≤ evidenceCount (pyLower caption) (hashtags.map pyLower))
    (hany : blocklist.any (fun b => strIn b (pyLower caption)) = true) :
    (is_twice_related caption hashtags uploader).1 = false
    ∧ ∃ b ∈ blocklist, strIn b (pyLower caption) = true
        ∧ (is_twice_related caption hashtags uploader).2 = Reason.blocked b := by
  cases hfind : blocklist.find? (fun b => strIn b (pyLower caption)) with
  | none =>
    obtain ⟨b, hb, hp⟩ := List.any_eq_true.mp hany
    exact absurd hp (List.find?_eq_none.mp hfind b hb)
  | some b =>
    have hbp : strIn b (pyLower caption) = true := by
      simpa using List.find?_some hfind
    rw [is_twice_related_blocked caption hashtags uploader b hoff htw hge hfind]
    exact ⟨rfl, b, List.mem_of_find?_eq_some hfind, hbp, rfl⟩

/-- Witness for C4: evidence 3 (member hashtags nayeon, momo and a caption
mention) is overridden by the blocklisted substring `"blackpink"`. -/
theorem blocklist_overrides_evidence_witness :
    officialLower.contains (pyLower "fan1") = false
    ∧ (["twice", "nayeon", "momo"].map pyLower).contains "twice" = true
    ∧ required_evidence ≤ evidenceCount (pyLower "nayeon momo blackpink #twice")
        (["twice", "nayeon", "momo"].map pyLower)
    ∧ blocklist.any (fun b => strIn b (pyLower "nayeon momo blackpink #twice")) = true
    ∧ (is_twice_related "nayeon momo blackpink #twice" ["twice", "nayeon", "momo"]
        "fan1").1 = false
    ∧ (is_twice_related "nayeon momo blackpink #twice" ["twice", "nayeon", "momo"]
        "fan1").2 = Reason.blocked "blackpink" :=
  ⟨by decide, by decide, by decide, by decide,
    (blocklist_overrides_evidence _ _ _ (by decide) (by decide) (by decide) (by decide)).1,
    by decide⟩

/-- Claim C6: the evidence count is the sum of four signals — one per roster
member appearing as a hashtag, exactly 1 if any roster member occurs in the
lowercased caption, one per topic-specific tag occurring as a substring of some
hashtag, and exactly 1 if any group keyword occurs in the lowercased caption;
duplicates inside a category cannot add beyond these per-category rules
because each category counts over its fixed word list. -/
theorem evidence_count_is_sum_of_signals (caption_lower : String)
    (hashtags_lower : List String) :
    evidenceCount caption_lower hashtags_lower =
      TWICE_MEMBERS.countP (fun m => hashtags_lower.contains m)
      + (if TWICE_MEMBERS.any (fun m => strIn m caption_lower) then 1 else 0)
      + twice_specific_tags.countP (fun t => hashtags_lower.any (fun ht => strIn t ht))
      + (if group_keywords.any (fun k => strIn k caption_lower) then 1 else 0) := by
  simp only [evidenceCount, memberHashtagMatches, captionMemberMatches,
    specificTagMatches, keywordMatches, ite_isEmpty_length, ite_isEmpty_filter_one,
    List.countP_eq_length_filter]

/-! Ledger lemmas: a file built by appending newline-terminated identifiers
splits back into exactly those identifiers. -/

lemma splitlinesAux_append : ∀ (id : List Char), '\n' ∉ id → ∀ (acc rest : List Char),
    splitlinesAux acc (id ++ '\n' :: rest) = (acc ++ id) :: splitlinesAux [] rest
  | [], _, acc, rest => by simp [splitlinesAux]
  | c :: cs, hnl, acc, rest => by
    have hc : ¬ (c = '\n') := fun h => hnl (by simp [h])
    have hcs : '\n' ∉ cs := fun h => hnl (by simp [h])
    simp only [List.cons_append, splitlinesAux, if_neg hc, List.append_eq]
    rw [splitlinesAux_append cs hcs (acc ++ [c]) rest]
    simp

lemma pySplitlines_joinIds : ∀ (ids : List (List Char)), (∀ id ∈ ids, '\n' ∉ id) →
    pySplitlines (joinIds ids) = ids
  | [], _ => rfl
  | id :: rest, h => by
    have h1 : '\n' ∉ id := h id (List.mem_cons_self _ _)
    have h2 : ∀ i ∈ rest, '\n' ∉ i := fun i hi => h i (List.mem_cons_of_mem _ hi)
    show splitlinesAux [] (id ++ '\n' :: joinIds rest) = id :: rest
    rw [splitlinesAux_append id h1 [] (joinIds rest)]
    have hr : splitlinesAux [] (joinIds rest) = rest := pySplitlines_joinIds rest h2
    rw [List.nil_append, hr]

lemma joinIds_append : ∀ (a b : List (List Char)), joinIds (a ++ b) = joinIds a ++ joinIds b
  | [], _ => rfl
  | id :: rest, b => by
    show id ++ '\n' :: joinIds (rest ++ b) = (id ++ '\n' :: joinIds rest) ++ joinIds b
    rw [joinIds_append rest b]
    simp

lemma ledgerContains_joinIds (ids : List (List Char)) (h : ∀ i ∈ ids, '\n' ∉ i)
    (x : List Char) : ledgerContains (joinIds ids) x = true ↔ x ∈ ids := by
  unfold ledgerContains
  rw [pySplitlines_joinIds ids h]
  exact contains_eq_true_iff ids x

lemma ledgerContains_joinIds_false (ids : List (List Char)) (h : ∀ i ∈ ids, '\n' ∉ i)
    (x : List Char) (hx : x ∉ ids) : ledgerContains (joinIds ids) x = false := by
  cases hc : ledgerContains (joinIds ids) x with
  | false => rfl
  | true => exact absurd ((ledgerContains_joinIds ids h x).mp hc) hx

/-- One successful run on a fresh candidate appends its identifier: evaluation
of `mainRun` on the download-success path. -/
lemma mainRun_fresh (v : VideoInfo) (file : Option (List Char))
    (hc : ledgerContains (ensureLedgerFile file) v.id = false) :
    mainRun (some v) file true
      = ⟨true, false, true, some (ledgerAppend (ensureLedgerFile file) v.id),
          RunOutcome.recorded⟩ := by
  unfold mainRun
  dsimp only
  rw [if_neg (by rw [hc]; exact Bool.false_ne_true), if_pos rfl]

/-- Threading `runSequence` through a ledger that already holds exactly the
identifiers in `done`: each remaining fresh candidate is appended in turn. -/
lemma runSequence_joinIds : ∀ (infos : List VideoInfo) (done : List (List Char)),
    (done ++ infos.map VideoInfo.id).Nodup →
    (∀ i ∈ done, '\n' ∉ i) → (∀ v ∈ infos, '\n' ∉ v.id) →
    runSequence infos (some (joinIds done))
      = some (joinIds (done ++ infos.map VideoInfo.id))
  | [], done, _, _, _ => by simp [runSequence]
  | v :: rest, done, hnd, hd, hi => by
    have hdisj := (List.nodup_append.mp (by simpa using hnd)).2.2
    have hvnot : v.id ∉ done := fun hmem => hdisj hmem (List.mem_cons_self _ _)
    have hcont : ledgerContains (joinIds done) v.id = false :=
      ledgerContains_joinIds_false done hd v.id hvnot
    have hstep : (mainRun (some v) (some (joinIds done)) true).fileAfter
        = some (joinIds (done ++ [v.id])) := by
      rw [mainRun_fresh v (some (joinIds done)) hcont]
      simp [ensureLedgerFile, ledgerAppend, joinIds_append, joinIds]
    show runSequence rest ((mainRun (some v) (some (joinIds done)) true).fileAfter) = _
    rw [hstep]
    have hnd' : ((done ++ [v.id]) ++ rest.map VideoInfo.id).Nodup := by
      simpa [List.append_assoc] using hnd
    have hd' : ∀ i ∈ done ++ [v.id], '\n' ∉ i := by
      intro i hmem
      rcases List.mem_append.mp hmem with hido | hidv
      · exact hd i hido
      · rcases List.mem_singleton.mp hidv with rfl
        exact hi v (List.mem_cons_self _ _)
    have hi' : ∀ w ∈ rest, '\n' ∉ w.id := fun w hw => hi w (List.mem_cons_of_mem _ hw)
    rw [runSequence_joinIds rest (done ++ [v.id]) hnd' hd' hi']
    simp [List.append_assoc]

/-! Claim theorems about the orchestrator and the upload wrapper. -/

/-- Claim C7: once an identifier has been appended to the ledger (the file
content is the concatenation of newline-terminated identifiers including the
candidate's), every later run on a candidate carrying that identifier
short-circuits at the ledger check as already processed: the download and
publish operations are never invoked, nothing is appended, and the ledger file
is unchanged — whatever the download collaborator would have done. -/
theorem appended_id_short_circuits (ids : List (List Char)) (v : VideoInfo) (dl : Bool)
    (hnl : ids.all (fun i => !(i.contains '\n')) = true)
    (hmem : ids.contains v.id = true) :
    mainRun (some v) (some (joinIds ids)) dl
      = ⟨false, false, false, some (joinIds ids), RunOutcome.alreadyProcessed⟩ := by
  have h1 : ∀ i ∈ ids, '\n' ∉ i := by
    intro i hi hni
    have h := List.all_eq_true.mp hnl i hi
    rw [(contains_eq_true_iff i '\n').mpr hni] at h
    exact Bool.noConfusion h
  have hv : v.id ∈ ids := (contains_eq_true_iff ids v.id).mp hmem
  have hcont : ledgerContains (ensureLedgerFile (some (joinIds ids))) v.id = true :=
    (ledgerContains_joinIds ids h1 v.id).mpr hv
  unfold mainRun
  dsimp only
  rw [if_pos hcont]
  rfl

/-- Witness for C7: with `"7002"` already in the two-entry ledger, the run on a
candidate with id `"7002"` only reports it as already processed. -/
theorem appended_id_short_circuits_witness :
    (["7001".data, "7002".data].all (fun i => !(i.contains '\n'))) = true
    ∧ ["7001".data, "7002".data].contains ("7002".data) = true
    ∧ mainRun (some ⟨"7002".data, "u", "c", "n"⟩)
        (some (joinIds ["7001".data, "7002".data])) true
      = ⟨false, false, false, some (joinIds ["7001".data, "7002".data]),
          RunOutcome.alreadyProcessed⟩ :=
  ⟨by decide, by decide, appended_id_short_circuits _ _ _ (by decide) (by decide)⟩

/-- Claim C8: starting with no backing file (it is created empty before the
first read), N successful runs on candidates with N distinct newline-free
identifiers leave a ledger whose membership check answers true for exactly
those identifiers and false for every other. -/
theorem ledger_roundtrip (infos : List VideoInfo)
    (hne : infos ≠ [])
    (hnd : (infos.map VideoInfo.id).Nodup)
    (hnl : infos.all (fun v => !(v.id.contains '\n')) = true) :
    runSequence infos none = some (joinIds (infos.map VideoInfo.id))
    ∧ ∀ x, ledgerContains (joinIds (infos.map VideoInfo.id)) x = true
        ↔ x ∈ infos.map VideoInfo.id := by
  have hnl' : ∀ w ∈ infos, '\n' ∉ w.id := by
    intro w hw hni
    have h := List.all_eq_true.mp hnl w hw
    rw [(contains_eq_true_iff w.id '\n').mpr hni] at h
    exact Bool.noConfusion h
  have hmapnl : ∀ i ∈ infos.map VideoInfo.id, '\n' ∉ i := by
    intro i hi
    obtain ⟨w, hw, rfl⟩ := List.mem_map.mp hi
    exact hnl' w hw
  refine ⟨?_, fun x => ledgerContains_joinIds _ hmapnl x⟩
  cases infos with
  | nil => exact absurd rfl hne
  | cons v rest =>
    have hcont : ledgerContains (ensureLedgerFile none) v.id = false := rfl
    have hstep : (mainRun (some v) none true).fileAfter = some (joinIds [v.id]) := by
      rw [mainRun_fresh v none hcont]
      simp [ensureLedgerFile, ledgerAppend, joinIds]
    show runSequence rest ((mainRun (some v) none true).fileAfter) = _
    rw [hstep]
    have hnd1 : ([v.id] ++ rest.map VideoInfo.id).Nodup := by simpa using hnd
    have hd1 : ∀ i ∈ [v.id], '\n' ∉ i := by
      intro i hi
      rcases List.mem_singleton.mp hi with rfl
      exact hnl' v (List.mem_cons_self _ _)
    have hi1 : ∀ w ∈ rest, '\n' ∉ w.id := fun w hw => hnl' w (List.mem_cons_of_mem _ hw)
    rw [runSequence_joinIds rest [v.id] hnd1 hd1 hi1]
    simp

/-- Witness for C8: two runs recording `"a1"` then `"b2"` from a missing file
give a ledger containing exactly those ids (`"zz"` is absent). -/
theorem ledger_roundtrip_witness :
    ([⟨"a1".data, "", "", ""⟩, ⟨"b2".data, "", "", ""⟩] : List VideoInfo) ≠ []
    ∧ (([⟨"a1".data, "", "", ""⟩, ⟨"b2".data, "", "", ""⟩] : List VideoInfo).map
        VideoInfo.id).Nodup
    ∧ ([⟨"a1".data, "", "", ""⟩, ⟨"b2".data, "", "", ""⟩] : List VideoInfo).all
        (fun v => !(v.id.contains '\n')) = true
    ∧ runSequence [⟨"a1".data, "", "", ""⟩, ⟨"b2".data, "", "", ""⟩] none
        = some (joinIds ["a1".data, "b2".data])
    ∧ ledgerContains (joinIds ["a1".data, "b2".data]) "a1".data = true
    ∧ ledgerContains (joinIds ["a1".data, "b2".data]) "zz".data = false := by
  refine ⟨by decide, by decide, by decide, ?_, ?_, ?_⟩
  · exact (ledger_roundtrip [⟨"a1".data, "", "", ""⟩, ⟨"b2".data, "", "", ""⟩]
      (by decide) (by decide) (by decide)).1
  · exact ((ledger_roundtrip [⟨"a1".data, "", "", ""⟩, ⟨"b2".data, "", "", ""⟩]
      (by decide) (by decide) (by decide)).2 "a1".data).mpr (by decide)
  · cases hc : ledgerContains (joinIds ["a1".data, "b2".data]) "zz".data with
    | false => rfl
    | true =>
      exact absurd (((ledger_roundtrip [⟨"a1".data, "", "", ""⟩, ⟨"b2".data, "", "", ""⟩]
        (by decide) (by decide) (by decide)).2 "zz".data).mp hc) (by decide)

/-- Counterexample to claim C2 as stated: in the shipped testing-mode code a
run with a fresh candidate and a successful download appends the identifier to
the ledger even though the publish step was never invoked (let alone
succeeded). -/
theorem append_without_publish_counterexample :
    (mainRun (some ⟨"7123456789".data, "u", "c", "n"⟩) none true).appended = true
    ∧ (mainRun (some ⟨"7123456789".data, "u", "c", "n"⟩) none true).publishInvoked
        = false := by decide

/-- Claim C2 (amended): in every single run the publish step is never invoked
(the Facebook upload is commented out, testing mode), and an identifier is
appended to the ledger if and only if a candidate was produced, its identifier
was not already in the ledger, and the download succeeded. -/
theorem append_iff_download_success (info : Option VideoInfo) (file : Option (List Char))
    (dl : Bool) :
    (mainRun info file dl).publishInvoked = false
    ∧ ((mainRun info file dl).appended = true
        ↔ ∃ v, info = some v ∧ dl = true
            ∧ ledgerContains (ensureLedgerFile file) v.id = false) := by
  cases info with
  | none =>
    refine ⟨rfl, fun h => Bool.noConfusion h, ?_⟩
    rintro ⟨v, hv, -, -⟩
    exact Option.noConfusion hv
  | some v =>
    cases hc : ledgerContains (ensureLedgerFile file) v.id with
    | true =>
      have hrun : mainRun (some v) file dl
          = ⟨false, false, false, some (ensureLedgerFile file),
              RunOutcome.alreadyProcessed⟩ := by
        unfold mainRun
        dsimp only
        rw [if_pos hc]
      rw [hrun]
      refine ⟨rfl, fun h => Bool.noConfusion h, ?_⟩
      rintro ⟨w, hw, -, hcw⟩
      cases Option.some.inj hw
      rw [hc] at hcw
      exact Bool.noConfusion hcw
    | false =>
      cases dl with
      | true =>
        rw [mainRun_fresh v file hc]
        exact ⟨rfl, fun _ => ⟨v, rfl, rfl, hc⟩, fun _ => rfl⟩
      | false =>
        have hrun : mainRun (some v) file false
            = ⟨true, false, false, some (ensureLedgerFile file),
                RunOutcome.downloadFailed⟩ := by
          unfold mainRun
          dsimp only
          rw [if_neg (by rw [hc]; exact Bool.false_ne_true),
            if_neg (fun h => Bool.noConfusion h)]
        rw [hrun]
        refine ⟨rfl, fun h => Bool.noConfusion h, ?_⟩
        rintro ⟨w, -, hdl, -⟩
        exact Bool.noConfusion hdl

/-- Claim C9: the upload is attempted exactly when both credentials are set
and non-empty (otherwise it short-circuits as a configuration failure), and it
succeeds exactly when it was attempted and the remote call reported status
200. -/
theorem post_requires_credentials_and_200 (tok pid : Option String)
    (remote : RemoteOutcome) :
    (post_to_facebook tok pid remote).attempted = (!(isUnset tok) && !(isUnset pid))
    ∧ ((post_to_facebook tok pid remote).success = true
        ↔ isUnset tok = false ∧ isUnset pid = false
            ∧ remote = RemoteOutcome.status 200) := by
  cases htok : isUnset tok <;> cases hpid : isUnset pid <;> cases remote <;>
    simp [post_to_facebook, htok, hpid]

end RandTiktok
